import Mathlib

/-!
Shallow embedding of the MPACC campus-management front-end (React client).
The source is three dashboard controllers (Student, Teacher, Admin), a role
router, and a session store.  Pure view logic is embedded as Lean functions;
stateful handlers become explicit state-transition functions that also return
the list of effects (toasts, network calls, re-fetches) they would emit; the
outcome of a Gateway (backend) call is passed in as an explicit parameter.
Machine numbers that the code treats as integers are embedded as `Int`;
attendance percentages (JS floats used only for sums, division and 2-decimal
rounding) are embedded as `Rat`.
-/

namespace MPACC

/-- A user identity record as produced by login and kept in the session. -/
structure User where
  id : String
  username : String
  role : String
  name : String
  email : String
  profile_pic : String
deriving DecidableEq, Repr

/-- A grade record (Anna University pattern: part A out of 10, part B out of 40). -/
structure Grade where
  id : String
  student_id : String
  student_name : String
  subject : String
  subject_code : String
  part_a_marks : Int
  part_b_marks : Int
  total_marks : Int
  grade : String
deriving DecidableEq, Repr

/-- A schedule entry, owned by a teacher. -/
structure ScheduleEntry where
  id : String
  teacher_id : String
  subject : String
  subject_code : String
  day : String
  time_slot : String
  room : String
deriving DecidableEq, Repr

/-- An attendance record of one student for one subject. -/
structure AttendanceRecord where
  id : String
  student_id : String
  subject : String
  subject_code : String
  attended_classes : Int
  total_classes : Int
  percentage : Rat
deriving DecidableEq, Repr

/-- A campus event; `registered_users` is the list of registered user ids. -/
structure Event where
  id : String
  title : String
  description : String
  date : String
  time : String
  location : String
  event_type : String
  registration_required : Bool
  registered_users : List String
deriving DecidableEq, Repr

/-- A notice with its audience tags. -/
structure Notice where
  id : String
  title : String
  content : String
  priority : String
  target_audience : List String
  posted_by : String
  posted_date : String
deriving DecidableEq, Repr

/-- A complaint record. -/
structure Complaint where
  id : String
  title : String
  description : String
  complaint_type : String
  status : String
  submitted_by : String
  submitted_by_name : String
  submitted_date : String
  votes : Int
  voted_by : List String
  response : Option String
deriving DecidableEq, Repr

/-- A study material listing (read-only in the UI). -/
structure Material where
  id : String
  title : String
  subject : String
  subject_code : String
  description : String
  uploaded_by : String
  uploaded_date : String
deriving DecidableEq, Repr

/-- A library book listing (read-only in the UI). -/
structure Book where
  id : String
  title : String
  author : String
  isbn : String
  available : Bool
  available_copies : Int
  total_copies : Int
deriving DecidableEq, Repr

/-- `calculateGrade` from TeacherDashboard: the letter-grade band function. -/
def calculateGrade (total : Int) : String :=
  if total ≥ 45 then "A+"
  else if total ≥ 40 then "A"
  else if total ≥ 35 then "B+"
  else if total ≥ 30 then "B"
  else if total ≥ 25 then "C"
  else "F"

/-! ### Role router (`App` in the main file)

`App` renders four routes.  At `/` an unauthenticated visitor gets the login
page and an authenticated one is redirected by role (student → `/student`,
teacher → `/teacher`, anything else → `/admin`).  Each dashboard route renders
its dashboard only when a session exists with the matching role and otherwise
redirects to `/`. -/

/-- The four client-side routes declared in `App`. -/
inductive Route
  | root
  | student
  | teacher
  | admin
deriving DecidableEq, Repr

/-- What a route's `element` resolves to: a rendered page or a `Navigate`. -/
inductive RenderResult
  | loginPage
  | studentDashboard (u : User)
  | teacherDashboard (u : User)
  | adminDashboard (u : User)
  | redirect (target : Route)
deriving DecidableEq, Repr

/-- The `Routes` table of `App`: given the current session (`user` state,
`none` when logged out) and the requested route, the element rendered. -/
def renderRoute (user : Option User) : Route → RenderResult
  | .root =>
    match user with
    | some u =>
      if u.role = "student" then .redirect .student
      else if u.role = "teacher" then .redirect .teacher
      else .redirect .admin
    | none => .loginPage
  | .student =>
    match user with
    | some u =>
      if u.role = "student" then .studentDashboard u else .redirect .root
    | none => .redirect .root
  | .teacher =>
    match user with
    | some u =>
      if u.role = "teacher" then .teacherDashboard u else .redirect .root
    | none => .redirect .root
  | .admin =>
    match user with
    | some u =>
      if u.role = "admin" then .adminDashboard u else .redirect .root
    | none => .redirect .root

/-! ### Session store (`App`: handleLogin / handleLogout / mount effect)

`handleLogin` writes `JSON.stringify(userData)` under the `"user"` key of
`sessionStorage`; the mount effect reads the key back and `JSON.parse`s it;
`handleLogout` removes the key.  We embed JSON values as an inductive type and
the (de)serialization of the identity record as explicit functions. -/

/-- A JSON value, as exchanged with `sessionStorage`. -/
inductive Json
  | str (s : String)
  | num (n : Int)
  | boolean (b : Bool)
  | null
  | arr (items : List Json)
  | obj (fields : List (String × Json))
deriving Repr

/-- Field lookup in a JSON object (first binding wins, as in a JS object). -/
def jsonLookup : List (String × Json) → String → Option Json
  | [], _ => none
  | (k, v) :: rest, key => if k = key then some v else jsonLookup rest key

/-- `JSON.stringify` applied to a session identity record. -/
def stringifyUser (u : User) : Json :=
  .obj [("id", .str u.id), ("username", .str u.username), ("role", .str u.role),
        ("name", .str u.name), ("email", .str u.email),
        ("profile_pic", .str u.profile_pic)]

/-- `JSON.parse` of a stored value, read back into an identity record; `none`
when the value does not have the identity shape. -/
def parseUser (j : Json) : Option User :=
  match j with
  | .obj fields =>
    match jsonLookup fields "id", jsonLookup fields "username",
          jsonLookup fields "role", jsonLookup fields "name",
          jsonLookup fields "email", jsonLookup fields "profile_pic" with
    | some (.str i), some (.str un), some (.str r), some (.str nm),
      some (.str em), some (.str pp) =>
      some { id := i, username := un, role := r, name := nm, email := em,
             profile_pic := pp }
    | _, _, _, _, _, _ => none
  | _ => none

/-- The `sessionStorage` slot for the `"user"` key. -/
def Storage : Type := Option Json

/-- `handleLogin`: `sessionStorage.setItem("user", JSON.stringify(userData))`. -/
def handleLoginStorage (u : User) : Storage := some (stringifyUser u)

/-- `handleLogout`: `sessionStorage.removeItem("user")`. -/
def handleLogoutStorage : Storage := none

/-- The mount effect: read `"user"` back and parse it, `none` when absent. -/
def restoreSession : Storage → Option User
  | some j => parseUser j
  | none => none

/-! ### Student dashboard derived aggregates -/

/-- `x.toFixed(2)` on the exact value: rounding to two decimal places. -/
def roundTo2 (q : Rat) : Rat := (round (q * 100) : Int) / 100

/-- `avgAttendance` from StudentDashboard: the reduce-sum of the records'
percentages divided by the record count, rendered to two decimals, or `0`
when there are no records. -/
def avgAttendance (attendance : List AttendanceRecord) : Rat :=
  if attendance.length > 0 then
    roundTo2 ((attendance.foldl (fun sum a => sum + a.percentage) 0) /
      (attendance.length : Rat))
  else 0

/-- Modelled from the spec: the student average attendance is the arithmetic
mean of the `percentage` fields rounded to 2 decimals, or 0 if no records. -/
def specAvgAttendance (attendance : List AttendanceRecord) : Rat :=
  if attendance = [] then 0
  else roundTo2 ((attendance.map (fun a => a.percentage)).sum /
    (attendance.length : Rat))

/-! ### Teacher dashboard derived views -/

/-- `mySchedules`: schedule entries whose `teacher_id` is the session id. -/
def mySchedules (user : User) (schedules : List ScheduleEntry) :
    List ScheduleEntry :=
  schedules.filter (fun s => s.teacher_id == user.id)

/-- One step of building a JS `Set` from a list: insertion keeps the first
occurrence and preserves insertion order. -/
def jsSetInsert (seen : List String) (x : String) : List String :=
  if x ∈ seen then seen else seen ++ [x]

/-- `[...new Set(l)]`: deduplicate keeping first occurrences in order. -/
def jsSetDedup (l : List String) : List String := l.foldl jsSetInsert []

/-- `mySubjects`: `[...new Set(mySchedules.map(s => s.subject_code))]`. -/
def mySubjects (user : User) (schedules : List ScheduleEntry) : List String :=
  jsSetDedup ((mySchedules user schedules).map (fun s => s.subject_code))

/-- `myGrades`: `grades.filter(g => mySubjects.includes(g.subject_code))`. -/
def myGrades (user : User) (schedules : List ScheduleEntry)
    (grades : List Grade) : List Grade :=
  grades.filter (fun g => (mySubjects user schedules).contains g.subject_code)

/-! ### Student events tab: the register control -/

/-! ### Gateway outcomes, effects, and the mutation handlers

Each async handler is embedded as a state-transition function that also
returns the ordered list of observable effects (network calls, toasts, the
trailing `fetchData()` refresh).  The outcome of the awaited Gateway call is
an explicit `GatewayResult` parameter; the `catch` branch of the source is the
`err` case. -/

/-- The outcome of an awaited Gateway (axios) call. -/
inductive GatewayResult
  | ok
  | err
deriving DecidableEq, Repr

/-- Observable side effects a TeacherDashboard handler can emit. -/
inductive TeacherEffect
  | toastError (msg : String)
  | toastSuccess (msg : String)
  | putGrade (gradeId : String) (payload : Grade)
  | refetch
deriving DecidableEq, Repr

/-- Whether a teacher-dashboard effect is a network call to the Gateway. -/
def TeacherEffect.isNetworkCall : TeacherEffect → Bool
  | .putGrade _ _ => true
  | _ => false

/-- The grade edit form (`gradeForm`: part A and part B mark fields). -/
structure GradeForm where
  part_a_marks : Int
  part_b_marks : Int
deriving DecidableEq, Repr

/-- TeacherDashboard local view state. -/
structure TeacherState where
  grades : List Grade
  schedules : List ScheduleEntry
  complaints : List Complaint
  loading : Bool
  showGradeDialog : Bool
  editingGrade : Option Grade
  gradeForm : GradeForm
deriving DecidableEq, Repr

/-- `handleUpdateGrade` from TeacherDashboard.  The range validation runs
first and returns early with only an error toast; otherwise the updated grade
payload is built and PUT to the Gateway, whose outcome decides between the
success path (success toast, close the dialog, refetch) and the catch path
(error toast, no state change).  When `editingGrade` is absent the `try` body
throws on the id access before completing the PUT and lands in the same catch
path. -/
def handleUpdateGrade (st : TeacherState) (gw : GatewayResult) :
    TeacherState × List TeacherEffect :=
  if st.gradeForm.part_a_marks < 0 ∨ st.gradeForm.part_a_marks > 10 then
    (st, [.toastError "Part A marks must be between 0 and 10"])
  else if st.gradeForm.part_b_marks < 0 ∨ st.gradeForm.part_b_marks > 40 then
    (st, [.toastError "Part B marks must be between 0 and 40"])
  else
    match st.editingGrade with
    | none => (st, [.toastError "Failed to update grade"])
    | some g =>
      let total := st.gradeForm.part_a_marks + st.gradeForm.part_b_marks
      let letter := calculateGrade total
      let updatedGrade : Grade :=
        { g with part_a_marks := st.gradeForm.part_a_marks,
                 part_b_marks := st.gradeForm.part_b_marks,
                 total_marks := total, grade := letter }
      match gw with
      | .ok =>
        ({ st with showGradeDialog := false },
         [.putGrade g.id updatedGrade,
          .toastSuccess "Grade updated successfully!", .refetch])
      | .err =>
        (st, [.putGrade g.id updatedGrade,
              .toastError "Failed to update grade"])

/-- Observable side effects a StudentDashboard handler can emit. -/
inductive StudentEffect
  | toastError (msg : String)
  | toastSuccess (msg : String)
  | postComplaint (payload : Complaint)
  | postRegister (eventId : String) (userId : String)
  | refetch
deriving DecidableEq, Repr

/-- Whether a student-dashboard effect is a network call to the Gateway. -/
def StudentEffect.isNetworkCall : StudentEffect → Bool
  | .postComplaint _ => true
  | .postRegister _ _ => true
  | _ => false

/-- The new-complaint form (`newComplaint`). -/
structure ComplaintForm where
  title : String
  description : String
  type : String
deriving DecidableEq, Repr

/-- StudentDashboard local view state. -/
structure StudentState where
  grades : List Grade
  attendance : List AttendanceRecord
  materials : List Material
  library : List Book
  events : List Event
  complaints : List Complaint
  notices : List Notice
  loading : Bool
  showComplaintDialog : Bool
  newComplaint : ComplaintForm
deriving DecidableEq, Repr

/-- `handleSubmitComplaint` from StudentDashboard.  The required-field check
(JS falsiness of the title or description string, i.e. emptiness) returns
early with only an error toast; otherwise the complaint payload is built
(`now` stands for `Date.now()` and `today` for the ISO date, both read from
the clock) and POSTed; on success the dialog closes, the form resets and a
refetch runs; the catch path reports the error and changes no state. -/
def handleSubmitComplaint (st : StudentState) (user : User) (now : String)
    (today : String) (gw : GatewayResult) :
    StudentState × List StudentEffect :=
  if st.newComplaint.title = "" ∨ st.newComplaint.description = "" then
    (st, [.toastError "Please fill all fields"])
  else
    let complaint : Complaint :=
      { id := "C" ++ now, title := st.newComplaint.title,
        description := st.newComplaint.description,
        complaint_type := st.newComplaint.type, status := "pending",
        submitted_by := user.id, submitted_by_name := user.name,
        submitted_date := today, votes := 0, voted_by := [], response := none }
    match gw with
    | .ok =>
      ({ st with showComplaintDialog := false,
                 newComplaint :=
                   { title := "", description := "", type := "public" } },
       [.postComplaint complaint,
        .toastSuccess "Complaint submitted successfully!", .refetch])
    | .err =>
      (st, [.postComplaint complaint,
            .toastError "Failed to submit complaint"])

/-- `handleRegisterEvent` from StudentDashboard: POST the registration, then
either success toast plus refetch, or the catch path's error toast with no
state change. -/
def handleRegisterEvent (st : StudentState) (user : User) (eventId : String)
    (gw : GatewayResult) : StudentState × List StudentEffect :=
  match gw with
  | .ok =>
    (st, [.postRegister eventId user.id,
          .toastSuccess "Registered for event successfully!", .refetch])
  | .err =>
    (st, [.postRegister eventId user.id,
          .toastError "Failed to register for event"])

/-! ### The coordinated multi-resource fetch (`fetchData`)

`fetchData` awaits a `Promise.all` over one GET per resource; the destructured
results are assigned to the view collections only after the whole join
fulfills.  If any single GET rejects, `Promise.all` rejects, control moves to
the `catch` block, one error toast is shown and no setter runs. -/

/-- Whether an awaited request outcome is a rejection. -/
def isErr {α : Type} : Except String α → Bool
  | .error _ => true
  | .ok _ => false

/-- The seven parallel GET outcomes of the student dashboard's fetch round. -/
structure StudentFetchResults where
  grades : Except String (List Grade)
  attendance : Except String (List AttendanceRecord)
  materials : Except String (List Material)
  library : Except String (List Book)
  events : Except String (List Event)
  complaints : Except String (List Complaint)
  notices : Except String (List Notice)

/-- Whether any request of the student round failed (`Promise.all` rejects
exactly when some component promise rejects). -/
def StudentFetchResults.anyFailed (r : StudentFetchResults) : Bool :=
  isErr r.grades || isErr r.attendance || isErr r.materials ||
    isErr r.library || isErr r.events || isErr r.complaints || isErr r.notices

/-- `fetchData` from StudentDashboard: on a fulfilled join every collection is
set from its response (notices filtered to the student/all audience); on a
rejected join the catch block reports one error and no collection is touched;
`finally` clears the loading flag either way. -/
def studentFetchData (st : StudentState) (r : StudentFetchResults) :
    StudentState × List StudentEffect :=
  match r.grades, r.attendance, r.materials, r.library, r.events,
        r.complaints, r.notices with
  | .ok g, .ok a, .ok m, .ok l, .ok e, .ok c, .ok n =>
    ({ st with grades := g, attendance := a, materials := m, library := l,
               events := e, complaints := c,
               notices := n.filter (fun x =>
                 x.target_audience.contains "student" ||
                 x.target_audience.contains "all"),
               loading := false }, [])
  | _, _, _, _, _, _, _ =>
    ({ st with loading := false }, [.toastError "Failed to load data"])

/-- AdminDashboard local view state. -/
structure AdminState where
  users : List User
  students : List User
  events : List Event
  complaints : List Complaint
  notices : List Notice
  attendance : List AttendanceRecord
  loading : Bool
deriving DecidableEq, Repr

/-- Observable side effects of the admin dashboard's fetch round. -/
inductive AdminEffect
  | toastError (msg : String)
deriving DecidableEq, Repr

/-- The six parallel GET outcomes of the admin dashboard's fetch round. -/
structure AdminFetchResults where
  users : Except String (List User)
  students : Except String (List User)
  events : Except String (List Event)
  complaints : Except String (List Complaint)
  notices : Except String (List Notice)
  attendance : Except String (List AttendanceRecord)

/-- Whether any request of the admin round failed. -/
def AdminFetchResults.anyFailed (r : AdminFetchResults) : Bool :=
  isErr r.users || isErr r.students || isErr r.events || isErr r.complaints ||
    isErr r.notices || isErr r.attendance

/-- `fetchData` from AdminDashboard: all six collections are set on a
fulfilled join; the catch block reports one error and no collection is
touched; `finally` clears the loading flag either way. -/
def adminFetchData (st : AdminState) (r : AdminFetchResults) :
    AdminState × List AdminEffect :=
  match r.users, r.students, r.events, r.complaints, r.notices,
        r.attendance with
  | .ok u, .ok s, .ok e, .ok c, .ok n, .ok a =>
    ({ st with users := u, students := s, events := e, complaints := c,
               notices := n, attendance := a, loading := false }, [])
  | _, _, _, _, _, _ =>
    ({ st with loading := false }, [.toastError "Failed to load data"])

/-- The rendered Register button: its disabled state and its label. -/
structure RegisterButton where
  disabled : Bool
  label : String
deriving DecidableEq, Repr

/-- The events-tab register control in StudentDashboard's JSX: rendered only
under `event.registration_required && event.event_type !== "holiday"`; when
rendered it is disabled, and relabeled "Registered", exactly when the session
user is already in the event's registered set. -/
def eventRegisterControl (userId : String) (e : Event) : Option RegisterButton :=
  if e.registration_required && e.event_type != "holiday" then
    some { disabled := e.registered_users.contains userId,
           label := if e.registered_users.contains userId then "Registered"
                    else "Register" }
  else none

end MPACC

namespace MPACC

/-- C1: For every integer total in [0,50], `calculateGrade` returns exactly one
letter from \x7bA+, A, B+, B, C, F\x7d according to the bands: total ≥ 45 gives
"A+", total ≥ 40 gives "A", total ≥ 35 gives "B+", total ≥ 30 gives "B",
total ≥ 25 gives "C", otherwise "F"; in particular `calculateGrade 45 = "A+"`,
`calculateGrade 44 = "A"` and `calculateGrade 24 = "F"`. -/
theorem calculateGrade_bands (total : Int) (h0 : 0 ≤ total) (h1 : total ≤ 50) :
    calculateGrade total ∈ ["A+", "A", "B+", "B", "C", "F"] ∧
    (45 ≤ total → calculateGrade total = "A+") ∧
    (40 ≤ total → total < 45 → calculateGrade total = "A") ∧
    (35 ≤ total → total < 40 → calculateGrade total = "B+") ∧
    (30 ≤ total → total < 35 → calculateGrade total = "B") ∧
    (25 ≤ total → total < 30 → calculateGrade total = "C") ∧
    (total < 25 → calculateGrade total = "F") ∧
    calculateGrade 45 = "A+" ∧ calculateGrade 44 = "A" ∧ calculateGrade 24 = "F" := by
  interval_cases total <;> simp [calculateGrade]

/-- Witness for C1 at total = 45: the band conclusions evaluate as stated. -/
theorem calculateGrade_bands_witness :
    calculateGrade 45 ∈ ["A+", "A", "B+", "B", "C", "F"] ∧
    (45 ≤ (45 : Int) → calculateGrade 45 = "A+") ∧
    (40 ≤ (45 : Int) → (45 : Int) < 45 → calculateGrade 45 = "A") ∧
    (35 ≤ (45 : Int) → (45 : Int) < 40 → calculateGrade 45 = "B+") ∧
    (30 ≤ (45 : Int) → (45 : Int) < 35 → calculateGrade 45 = "B") ∧
    (25 ≤ (45 : Int) → (45 : Int) < 30 → calculateGrade 45 = "C") ∧
    ((45 : Int) < 25 → calculateGrade 45 = "F") ∧
    calculateGrade 45 = "A+" ∧ calculateGrade 44 = "A" ∧ calculateGrade 24 = "F" :=
  calculateGrade_bands 45 (by decide) (by decide)

/-- C6: For every session state and every route in \x7b/student, /teacher,
/admin\x7d, the corresponding dashboard is rendered if and only if a session
exists and its role matches that route; otherwise the router redirects to `/`,
and an authenticated session at `/` is redirected to exactly one dashboard
route determined by its role. -/
theorem route_guards (u : User) :
    (renderRoute (some u) .student = .studentDashboard u ↔ u.role = "student") ∧
    (u.role ≠ "student" → renderRoute (some u) .student = .redirect .root) ∧
    (renderRoute (some u) .teacher = .teacherDashboard u ↔ u.role = "teacher") ∧
    (u.role ≠ "teacher" → renderRoute (some u) .teacher = .redirect .root) ∧
    (renderRoute (some u) .admin = .adminDashboard u ↔ u.role = "admin") ∧
    (u.role ≠ "admin" → renderRoute (some u) .admin = .redirect .root) ∧
    renderRoute none .student = .redirect .root ∧
    renderRoute none .teacher = .redirect .root ∧
    renderRoute none .admin = .redirect .root ∧
    renderRoute (some u) .root ∈
      [RenderResult.redirect .student, .redirect .teacher, .redirect .admin] ∧
    (u.role = "student" → renderRoute (some u) .root = .redirect .student) ∧
    (u.role = "teacher" → renderRoute (some u) .root = .redirect .teacher) ∧
    (u.role ≠ "student" → u.role ≠ "teacher" →
      renderRoute (some u) .root = .redirect .admin) := by
  by_cases hs : u.role = "student" <;> by_cases ht : u.role = "teacher" <;>
    by_cases ha : u.role = "admin" <;> simp_all [renderRoute]

/-- Witness for C6 at a concrete student session: the guard conclusions hold. -/
theorem route_guards_witness :
    letI u : User :=
      { id := "S001", username := "alice", role := "student", name := "Alice",
        email := "alice@campus", profile_pic := "" }
    (renderRoute (some u) .student = .studentDashboard u ↔ u.role = "student") ∧
    (u.role ≠ "student" → renderRoute (some u) .student = .redirect .root) ∧
    (renderRoute (some u) .teacher = .teacherDashboard u ↔ u.role = "teacher") ∧
    (u.role ≠ "teacher" → renderRoute (some u) .teacher = .redirect .root) ∧
    (renderRoute (some u) .admin = .adminDashboard u ↔ u.role = "admin") ∧
    (u.role ≠ "admin" → renderRoute (some u) .admin = .redirect .root) ∧
    renderRoute none .student = .redirect .root ∧
    renderRoute none .teacher = .redirect .root ∧
    renderRoute none .admin = .redirect .root ∧
    renderRoute (some u) .root ∈
      [RenderResult.redirect .student, .redirect .teacher, .redirect .admin] ∧
    (u.role = "student" → renderRoute (some u) .root = .redirect .student) ∧
    (u.role = "teacher" → renderRoute (some u) .root = .redirect .teacher) ∧
    (u.role ≠ "student" → u.role ≠ "teacher" →
      renderRoute (some u) .root = .redirect .admin) :=
  route_guards
    { id := "S001", username := "alice", role := "student", name := "Alice",
      email := "alice@campus", profile_pic := "" }

/-- Folding the percentage sum from any accumulator equals the accumulator
plus the sum of the mapped percentages. -/
theorem foldl_percentage_sum (l : List AttendanceRecord) (init : Rat) :
    l.foldl (fun sum a => sum + a.percentage) init
      = init + (l.map (fun a => a.percentage)).sum := by
  induction l generalizing init with
  | nil => simp
  | cons a t ih => simp [List.foldl_cons, ih, add_assoc]

/-- C3: For every list of the student's attendance records, the displayed
average attendance equals the arithmetic mean of the records' percentage
fields rounded to 2 decimals, and equals 0 when the list is empty; for
percentages [80, 60, 100] it equals 80.00. -/
theorem avgAttendance_correct (l : List AttendanceRecord) :
    avgAttendance l = specAvgAttendance l ∧
    avgAttendance [] = 0 ∧
    avgAttendance
      [{ id := "A1", student_id := "S1", subject := "Maths",
         subject_code := "MA101", attended_classes := 8, total_classes := 10,
         percentage := 80 },
       { id := "A2", student_id := "S1", subject := "Physics",
         subject_code := "PH101", attended_classes := 6, total_classes := 10,
         percentage := 60 },
       { id := "A3", student_id := "S1", subject := "Chemistry",
         subject_code := "CY101", attended_classes := 10, total_classes := 10,
         percentage := 100 }] = 80 := by
  refine ⟨?_, by simp [avgAttendance], ?_⟩
  · cases l with
    | nil => simp [avgAttendance, specAvgAttendance]
    | cons a t =>
      simp only [avgAttendance, specAvgAttendance, foldl_percentage_sum]
      norm_num
      rw [if_neg (List.cons_ne_nil a t)]
  · norm_num [avgAttendance, roundTo2]

/-- For any accumulator, membership in the JS-set fold is membership in the
accumulator or in the folded list. -/
theorem jsSetFold_mem (l : List String) (acc : List String) (x : String) :
    x ∈ l.foldl jsSetInsert acc ↔ x ∈ acc ∨ x ∈ l := by
  induction l generalizing acc with
  | nil => simp
  | cons a t ih =>
    rw [List.foldl_cons, ih]
    by_cases h : a ∈ acc
    · rw [jsSetInsert, if_pos h]
      constructor
      · rintro (hx | hx)
        · exact Or.inl hx
        · simp [hx]
      · rintro (hx | hx)
        · exact Or.inl hx
        · rcases List.mem_cons.mp hx with hx | hx
          · exact Or.inl (hx ▸ h)
          · exact Or.inr hx
    · rw [jsSetInsert, if_neg h]
      simp [List.mem_append, or_assoc]

/-- For any duplicate-free accumulator, the JS-set fold stays duplicate-free. -/
theorem jsSetFold_nodup (l : List String) (acc : List String)
    (hacc : acc.Nodup) : (l.foldl jsSetInsert acc).Nodup := by
  induction l generalizing acc with
  | nil => simpa
  | cons a t ih =>
    rw [List.foldl_cons]
    apply ih
    by_cases h : a ∈ acc
    · simpa [jsSetInsert, h]
    · simp [jsSetInsert, h, List.nodup_append, hacc, List.disjoint_singleton]

/-- C7: For every fetched grades and schedules collection, the teacher
dashboard displays exactly those grade records whose subject code appears
among the subject codes of schedule entries whose teacher id equals the
logged-in teacher's id, with the subject set deduplicated. -/
theorem teacher_grade_scope (user : User) (schedules : List ScheduleEntry)
    (grades : List Grade) :
    (∀ g : Grade, g ∈ myGrades user schedules grades ↔
      g ∈ grades ∧ ∃ s ∈ schedules, s.teacher_id = user.id ∧
        s.subject_code = g.subject_code) ∧
    (mySubjects user schedules).Nodup := by
  constructor
  · intro g
    simp only [myGrades, List.mem_filter]
    have hc : ((mySubjects user schedules).contains g.subject_code = true) ↔
        g.subject_code ∈ mySubjects user schedules := by simp
    rw [hc, mySubjects, jsSetDedup, jsSetFold_mem]
    simp only [List.not_mem_nil, false_or, List.mem_map, mySchedules,
      List.mem_filter, beq_iff_eq]
    constructor
    · rintro ⟨hg, s, ⟨hs, ht⟩, hcode⟩
      exact ⟨hg, s, hs, ht, hcode⟩
    · rintro ⟨hg, s, hs, ht, hcode⟩
      exact ⟨hg, s, ⟨hs, ht⟩, hcode⟩
  · exact jsSetFold_nodup _ _ List.nodup_nil

/-- C8: The session identity round-trips through storage: for every plain user
record `u`, after `handleLogin u` the value restored from sessionStorage
(JSON parse of JSON stringify of `u`) equals `u`, and after `handleLogout` the
restore yields no session. -/
theorem session_roundtrip (u : User) :
    restoreSession (handleLoginStorage u) = some u ∧
    restoreSession handleLogoutStorage = none := by
  refine ⟨?_, rfl⟩
  simp [restoreSession, handleLoginStorage, stringifyUser, parseUser, jsonLookup]

/-- C9: For every event in the student dashboard's events tab, a Register
control is rendered if and only if the event has `registration_required` true
and `event_type` is not "holiday"; in particular no registration control is
offered for a holiday event, even when its `registration_required` flag is
true. -/
theorem register_control_condition (userId : String) (e : Event) :
    ((eventRegisterControl userId e).isSome ↔
      e.registration_required = true ∧ e.event_type ≠ "holiday") ∧
    (e.event_type = "holiday" → eventRegisterControl userId e = none) := by
  unfold eventRegisterControl
  by_cases hr : e.registration_required <;>
    by_cases hh : e.event_type = "holiday" <;> simp [hr, hh]

/-- Witness for C9 at a holiday event whose `registration_required` is true:
no register control is rendered. -/
theorem register_control_condition_witness :
    letI e : Event :=
      { id := "E1", title := "Diwali", description := "Campus holiday",
        date := "2026-10-20", time := "", location := "",
        event_type := "holiday", registration_required := true,
        registered_users := [] }
    ((eventRegisterControl "S1" e).isSome ↔
      e.registration_required = true ∧ e.event_type ≠ "holiday") ∧
    (e.event_type = "holiday" → eventRegisterControl "S1" e = none) :=
  register_control_condition "S1"
    { id := "E1", title := "Diwali", description := "Campus holiday",
      date := "2026-10-20", time := "", location := "",
      event_type := "holiday", registration_required := true,
      registered_users := [] }

/-- C2: For every grade-form submission where part-A marks are outside [0,10]
or part-B marks are outside [0,40], `handleUpdateGrade` reports a validation
error and returns without issuing any network call to the Gateway, leaving
the state unchanged (inputs outside range are rejected, not clamped). -/
theorem grade_form_validation (st : TeacherState) (gw : GatewayResult)
    (h : st.gradeForm.part_a_marks < 0 ∨ st.gradeForm.part_a_marks > 10 ∨
         st.gradeForm.part_b_marks < 0 ∨ st.gradeForm.part_b_marks > 40) :
    (handleUpdateGrade st gw).1 = st ∧
    (∀ e ∈ (handleUpdateGrade st gw).2, e.isNetworkCall = false) ∧
    (∃ msg, TeacherEffect.toastError msg ∈ (handleUpdateGrade st gw).2) := by
  unfold handleUpdateGrade
  split_ifs with h1 h2
  · exact ⟨rfl, by simp [TeacherEffect.isNetworkCall],
      "Part A marks must be between 0 and 10", by simp⟩
  · exact ⟨rfl, by simp [TeacherEffect.isNetworkCall],
      "Part B marks must be between 0 and 40", by simp⟩
  · exfalso
    omega

/-- Witness for C2 at a form with part-A = 11: the submission is rejected with
no network call and no state change. -/
theorem grade_form_validation_witness :
    letI st : TeacherState :=
      { grades := [], schedules := [], complaints := [], loading := false,
        showGradeDialog := true, editingGrade := none,
        gradeForm := { part_a_marks := 11, part_b_marks := 5 } }
    (st.gradeForm.part_a_marks < 0 ∨ st.gradeForm.part_a_marks > 10 ∨
     st.gradeForm.part_b_marks < 0 ∨ st.gradeForm.part_b_marks > 40) ∧
    ((handleUpdateGrade st .ok).1 = st ∧
     (∀ e ∈ (handleUpdateGrade st .ok).2, e.isNetworkCall = false) ∧
     (∃ msg, TeacherEffect.toastError msg ∈ (handleUpdateGrade st .ok).2)) :=
  ⟨by decide,
    grade_form_validation
      { grades := [], schedules := [], complaints := [], loading := false,
        showGradeDialog := true, editingGrade := none,
        gradeForm := { part_a_marks := 11, part_b_marks := 5 } }
      .ok (by decide)⟩

/-- C4: For the mutation actions (grade update, complaint submission, event
registration), if the Gateway call fails then the controller reports the
error and none of its local view or form state is altered: the dialog flags
and entered form values are preserved and the fetched collections are
unchanged (no optimistic update is kept). -/
theorem mutation_failure_preserves_state (tst : TeacherState)
    (sst : StudentState) (user : User) (now today eventId : String)
    (hta : ¬(tst.gradeForm.part_a_marks < 0 ∨ tst.gradeForm.part_a_marks > 10))
    (htb : ¬(tst.gradeForm.part_b_marks < 0 ∨ tst.gradeForm.part_b_marks > 40))
    (hsc : ¬(sst.newComplaint.title = "" ∨ sst.newComplaint.description = "")) :
    (handleUpdateGrade tst .err).1 = tst ∧
    (∃ msg, TeacherEffect.toastError msg ∈ (handleUpdateGrade tst .err).2) ∧
    (handleSubmitComplaint sst user now today .err).1 = sst ∧
    (∃ msg, StudentEffect.toastError msg ∈
      (handleSubmitComplaint sst user now today .err).2) ∧
    (handleRegisterEvent sst user eventId .err).1 = sst ∧
    (∃ msg, StudentEffect.toastError msg ∈
      (handleRegisterEvent sst user eventId .err).2) := by
  unfold handleUpdateGrade handleSubmitComplaint handleRegisterEvent
  rw [if_neg hta, if_neg htb, if_neg hsc]
  rcases heg : tst.editingGrade with _ | g <;>
    exact ⟨rfl, ⟨"Failed to update grade", by simp⟩, rfl,
      ⟨"Failed to submit complaint", by simp⟩, rfl,
      ⟨"Failed to register for event", by simp⟩⟩

/-- Witness for C4 at concrete teacher and student states with valid forms:
a failed Gateway call changes no local state and reports an error. -/
theorem mutation_failure_preserves_state_witness :
    letI tst : TeacherState :=
      { grades := [], schedules := [], complaints := [], loading := false,
        showGradeDialog := true,
        editingGrade := some
          { id := "G1", student_id := "S1", student_name := "Alice",
            subject := "Maths", subject_code := "MA101", part_a_marks := 5,
            part_b_marks := 20, total_marks := 25, grade := "C" },
        gradeForm := { part_a_marks := 7, part_b_marks := 35 } }
    letI sst : StudentState :=
      { grades := [], attendance := [], materials := [], library := [],
        events := [], complaints := [], notices := [], loading := false,
        showComplaintDialog := true,
        newComplaint :=
          { title := "Wifi down", description := "No wifi in hostel",
            type := "public" } }
    letI user : User :=
      { id := "S1", username := "alice", role := "student", name := "Alice",
        email := "alice@campus", profile_pic := "" }
    (¬(tst.gradeForm.part_a_marks < 0 ∨ tst.gradeForm.part_a_marks > 10)) ∧
    (¬(tst.gradeForm.part_b_marks < 0 ∨ tst.gradeForm.part_b_marks > 40)) ∧
    (¬(sst.newComplaint.title = "" ∨ sst.newComplaint.description = "")) ∧
    ((handleUpdateGrade tst .err).1 = tst ∧
     (∃ msg, TeacherEffect.toastError msg ∈ (handleUpdateGrade tst .err).2) ∧
     (handleSubmitComplaint sst user "171" "2026-10-12" .err).1 = sst ∧
     (∃ msg, StudentEffect.toastError msg ∈
       (handleSubmitComplaint sst user "171" "2026-10-12" .err).2) ∧
     (handleRegisterEvent sst user "E1" .err).1 = sst ∧
     (∃ msg, StudentEffect.toastError msg ∈
       (handleRegisterEvent sst user "E1" .err).2)) :=
  ⟨by decide, by decide, by decide,
    mutation_failure_preserves_state
      { grades := [], schedules := [], complaints := [], loading := false,
        showGradeDialog := true,
        editingGrade := some
          { id := "G1", student_id := "S1", student_name := "Alice",
            subject := "Maths", subject_code := "MA101", part_a_marks := 5,
            part_b_marks := 20, total_marks := 25, grade := "C" },
        gradeForm := { part_a_marks := 7, part_b_marks := 35 } }
      { grades := [], attendance := [], materials := [], library := [],
        events := [], complaints := [], notices := [], loading := false,
        showComplaintDialog := true,
        newComplaint :=
          { title := "Wifi down", description := "No wifi in hostel",
            type := "public" } }
      { id := "S1", username := "alice", role := "student", name := "Alice",
        email := "alice@campus", profile_pic := "" }
      "171" "2026-10-12" "E1" (by decide) (by decide) (by decide)⟩

/-- C5: The multi-resource fetch is an all-or-nothing join: the resource
requests are awaited jointly, and if any single request fails then one error
is reported and no partial results from the failed round are stored into the
view collections — the state is unchanged apart from the loading flag, so a
view that had no data still shows no data until a retry. -/
theorem fetch_all_or_nothing (sst : StudentState) (rs : StudentFetchResults)
    (ast : AdminState) (ra : AdminFetchResults)
    (hs : rs.anyFailed = true) (ha : ra.anyFailed = true) :
    studentFetchData sst rs =
      ({ sst with loading := false }, [.toastError "Failed to load data"]) ∧
    adminFetchData ast ra =
      ({ ast with loading := false }, [.toastError "Failed to load data"]) := by
  constructor
  · rcases rs with ⟨g, a, m, l, e, c, n⟩
    rcases g with g | g <;> rcases a with a | a <;> rcases m with m | m <;>
      rcases l with l | l <;> rcases e with e | e <;> rcases c with c | c <;>
      rcases n with n | n <;>
      first
        | rfl
        | simp [StudentFetchResults.anyFailed, isErr] at hs
  · rcases ra with ⟨u, s, e, c, n, a⟩
    rcases u with u | u <;> rcases s with s | s <;> rcases e with e | e <;>
      rcases c with c | c <;> rcases n with n | n <;> rcases a with a | a <;>
      first
        | rfl
        | simp [AdminFetchResults.anyFailed, isErr] at ha

/-- Witness for C5 at concrete fetch rounds with one failed request each:
the dashboards keep their (empty) collections and report one error. -/
theorem fetch_all_or_nothing_witness :
    letI sst : StudentState :=
      { grades := [], attendance := [], materials := [], library := [],
        events := [], complaints := [], notices := [], loading := true,
        showComplaintDialog := false,
        newComplaint := { title := "", description := "", type := "public" } }
    letI rs : StudentFetchResults :=
      { grades := .error "network error", attendance := .ok [],
        materials := .ok [], library := .ok [], events := .ok [],
        complaints := .ok [], notices := .ok [] }
    letI ast : AdminState :=
      { users := [], students := [], events := [], complaints := [],
        notices := [], attendance := [], loading := true }
    letI ra : AdminFetchResults :=
      { users := .ok [], students := .ok [], events := .error "500",
        complaints := .ok [], notices := .ok [], attendance := .ok [] }
    rs.anyFailed = true ∧ ra.anyFailed = true ∧
    (studentFetchData sst rs =
       ({ sst with loading := false }, [.toastError "Failed to load data"]) ∧
     adminFetchData ast ra =
       ({ ast with loading := false }, [.toastError "Failed to load data"])) :=
  ⟨rfl, rfl,
    fetch_all_or_nothing
      { grades := [], attendance := [], materials := [], library := [],
        events := [], complaints := [], notices := [], loading := true,
        showComplaintDialog := false,
        newComplaint := { title := "", description := "", type := "public" } }
      { grades := .error "network error", attendance := .ok [],
        materials := .ok [], library := .ok [], events := .ok [],
        complaints := .ok [], notices := .ok [] }
      { users := [], students := [], events := [], complaints := [],
        notices := [], attendance := [], loading := true }
      { users := .ok [], students := .ok [], events := .error "500",
        complaints := .ok [], notices := .ok [], attendance := .ok [] }
      rfl rfl⟩

/-- C10: At the root route, every authenticated session whose role is neither
"student" nor "teacher" — including role values outside \x7bstudent, teacher,
admin\x7d — is redirected to `/admin`; the root route does not require the role
to equal "admin" for that redirect. -/
theorem root_route_default_admin (u : User)
    (hs : u.role ≠ "student") (ht : u.role ≠ "teacher") :
    renderRoute (some u) .root = .redirect .admin := by
  simp [renderRoute, hs, ht]

/-- Witness for C10 at a session whose role is "librarian", a value outside
\x7bstudent, teacher, admin\x7d: the root route still redirects to `/admin`. -/
theorem root_route_default_admin_witness :
    letI u : User :=
      { id := "U7", username := "lib", role := "librarian",
        name := "The Librarian", email := "lib@campus", profile_pic := "" }
    u.role ≠ "student" ∧ u.role ≠ "teacher" ∧
    renderRoute (some u) .root = .redirect .admin :=
  ⟨by decide, by decide,
    root_route_default_admin
      { id := "U7", username := "lib", role := "librarian",
        name := "The Librarian", email := "lib@campus", profile_pic := "" }
      (by decide) (by decide)⟩

end MPACC
